import Mathlib

/-!
Verification of the weather-dashboard data pipeline
(`src/weather_dashboard.py`) against its specification.

The pipeline consists of three functions: `to_unit` (temperature unit
conversion), `fetch_current_weather` and `fetch_forecast` (fetch a decoded
JSON response, validate the in-band status code, and extract a record /
a series of records).

Embedding conventions:
* JSON values are modelled by the inductive type `Json`; numbers are
  modelled as rationals (`ℚ`), which is exact for all arithmetic the
  source performs (`* 9 / 5 + 32`, `* 100`).
* The network call and JSON decoding are outside the embedding: both
  fetchers are modelled from the decoded response value onward (source
  lines 53 and 81).  The `try` block in the source covers only the request
  and the decode, so any exception raised after it propagates past the
  function boundary; the embedding makes this explicit with the
  `FetchOutcome.exn` constructor.
* Python dictionary access `d.get(k)` returns `None` when the key is
  absent and raises `AttributeError` on a non-dict; `d[k]` raises
  `KeyError` when the key is absent and `TypeError` on a non-dict;
  `xs[0]` raises `IndexError` on an empty list.  These are modelled by
  `pyGet`, `pyIndex` and `pyAt` returning `Except PyErr`.
* Python arithmetic accepts ints, floats and bools; `asNum` coerces a
  `Json` number (or bool, with `True = 1`) to `ℚ` and raises `TypeError`
  otherwise, matching the source's type annotations (`float`).
* `datetime.fromtimestamp` is a strictly monotone injection from epoch
  seconds; timestamps are therefore modelled as the epoch seconds value.
-/

/-- Name of a Python exception class, used as the error payload. -/
abbrev PyErr := String

/-- A decoded JSON value.  Numbers are rationals (exact for the arithmetic
the source performs). -/
inductive Json where
  | null
  | bool (b : Bool)
  | num (q : ℚ)
  | str (s : String)
  | arr (elems : List Json)
  | obj (fields : List (String × Json))

/-- First-match lookup in a JSON object's field list. -/
def Json.lookupField : List (String × Json) → String → Option Json
  | [], _ => none
  | (k, v) :: rest, key => if k == key then some v else Json.lookupField rest key

/-- Python `d.get(k)`: `None` when absent, `AttributeError` on a non-dict. -/
def pyGet : Json → String → Except PyErr (Option Json)
  | .obj fs, k => .ok (Json.lookupField fs k)
  | _, _ => .error "AttributeError"

/-- Python `d.get(k, default)`. -/
def pyGetDefault (j : Json) (k : String) (dflt : Json) : Except PyErr Json :=
  match pyGet j k with
  | .error e => .error e
  | .ok none => .ok dflt
  | .ok (some v) => .ok v

/-- Python `d[k]`: `KeyError` when absent, `TypeError` on a non-dict. -/
def pyIndex : Json → String → Except PyErr Json
  | .obj fs, k =>
    match Json.lookupField fs k with
    | some v => .ok v
    | none => .error "KeyError"
  | _, _ => .error "TypeError"

/-- Python `xs[i]` on a JSON list: `IndexError` out of range, `TypeError`
on a non-list. -/
def pyAt : Json → Nat → Except PyErr Json
  | .arr xs, i =>
    match xs.get? i with
    | some v => .ok v
    | none => .error "IndexError"
  | _, _ => .error "TypeError"

/-- Coerce a JSON value to a number the way Python arithmetic does
(bools coerce, everything else raises `TypeError`). -/
def asNum : Json → Except PyErr ℚ
  | .num q => .ok q
  | .bool b => .ok (if b then 1 else 0)
  | _ => .error "TypeError"

/-- Coerce a JSON value to a string (the extracted description and icon
fields are strings per the API schema). -/
def asStr : Json → Except PyErr String
  | .str s => .ok s
  | _ => .error "TypeError"

/-- Python equality test `v == n` of an optional JSON value against a
number, as in `data.get("cod") != 200`: `None`, strings, lists and dicts
are simply unequal to a number; bools coerce (`True == 1`). -/
def pyEqNum : Option Json → ℚ → Bool
  | some (.num q), n => q == n
  | some (.bool b), n => (if b then (1 : ℚ) else 0) == n
  | _, _ => false

/-- Python equality test `v == s` of an optional JSON value against a
string, as in `raw.get("cod") != "200"`: only an equal string passes. -/
def pyEqStr : Option Json → String → Bool
  | some (.str t), s => t == s
  | _, _ => false

/-- `to_unit` (source line 35): convert a Celsius temperature to the
selected unit string. -/
def to_unit (temp_c : ℚ) (unit : String) : ℚ :=
  if unit == "°F" then temp_c * 9 / 5 + 32 else temp_c

/-- The dictionary returned by `fetch_current_weather` on success
(source lines 57 to 65). -/
structure CurrentObservation where
  temp : ℚ
  humidity : ℚ
  description : String
  icon : String
  timestamp : ℚ
  lat : ℚ
  lon : ℚ
deriving DecidableEq

/-- One row built by the `fetch_forecast` loop (source lines 86 to 93). -/
structure ForecastRecord where
  timestamp : ℚ
  temperature : ℚ
  humidity : ℚ
  description : String
  wind_speed : ℚ
  rain_chance : ℚ
deriving DecidableEq

/-- Outcome of a fetcher: an uncaught Python exception escaping the
function, the `None` return value, or a fully constructed result. -/
inductive FetchOutcome (α : Type) where
  | exn (e : PyErr)
  | none
  | ok (a : α)
deriving DecidableEq

/-- Field extraction of `fetch_current_weather` (source lines 57 to 65),
in source evaluation order.  Any missing field or wrongly typed value
raises (the source has no handler at this point). -/
def extractCurrent (data : Json) (unit : String) : Except PyErr CurrentObservation := do
  let tempC ← pyIndex data "main" >>= (pyIndex · "temp") >>= asNum
  let humidity ← pyIndex data "main" >>= (pyIndex · "humidity") >>= asNum
  let description ← pyIndex data "weather" >>= (pyAt · 0) >>= (pyIndex · "description") >>= asStr
  let icon ← pyIndex data "weather" >>= (pyAt · 0) >>= (pyIndex · "icon") >>= asStr
  let dt ← pyIndex data "dt" >>= asNum
  let lat ← pyIndex data "coord" >>= (pyIndex · "lat") >>= asNum
  let lon ← pyIndex data "coord" >>= (pyIndex · "lon") >>= asNum
  pure { temp := to_unit tempC unit, humidity := humidity, description := description,
         icon := icon, timestamp := dt, lat := lat, lon := lon }

/-- `fetch_current_weather` (source lines 40 to 65), modelled from the
decoded response onward: validate `data.get("cod") != 200`, then extract. -/
def fetch_current_weather (data : Json) (unit : String) : FetchOutcome CurrentObservation :=
  match pyGet data "cod" with
  | .error e => .exn e
  | .ok cod =>
    if pyEqNum cod 200 then
      match extractCurrent data unit with
      | .error e => .exn e
      | .ok r => .ok r
    else .none

/-- Body of the `fetch_forecast` loop for one entry (source lines 86 to 93),
in source evaluation order. -/
def extractEntry (entry : Json) (unit : String) : Except PyErr ForecastRecord := do
  let dt ← pyIndex entry "dt" >>= asNum
  let tempC ← pyIndex entry "main" >>= (pyIndex · "temp") >>= asNum
  let humidity ← pyIndex entry "main" >>= (pyIndex · "humidity") >>= asNum
  let description ← pyIndex entry "weather" >>= (pyAt · 0) >>= (pyIndex · "description") >>= asStr
  let wind ← pyIndex entry "wind" >>= (pyIndex · "speed") >>= asNum
  let pop ← pyGetDefault entry "pop" (Json.num 0) >>= asNum
  pure { timestamp := dt, temperature := to_unit tempC unit, humidity := humidity,
         description := description, wind_speed := wind, rain_chance := pop * 100 }

/-- The `for entry in raw["list"]` loop: entries are processed in order
and the first exception aborts the whole call. -/
def mapEntries (unit : String) : List Json → Except PyErr (List ForecastRecord)
  | [] => .ok []
  | en :: rest => do
    let r ← extractEntry en unit
    let rs ← mapEntries unit rest
    pure (r :: rs)

/-- `fetch_forecast` (source lines 68 to 100), modelled from the decoded
response onward: validate `raw.get("cod") != "200"` (a textual sentinel),
then build one record per entry of `raw["list"]` in input order.  The
`DataFrame` constructor and `set_index` preserve row order, so the series
is the record list itself. -/
def fetch_forecast (raw : Json) (unit : String) : FetchOutcome (List ForecastRecord) :=
  match pyGet raw "cod" with
  | .error e => .exn e
  | .ok cod =>
    if pyEqStr cod "200" then
      match pyIndex raw "list" with
      | .error e => .exn e
      | .ok l =>
        match l with
        | .arr entries =>
          match mapEntries unit entries with
          | .error e => .exn e
          | .ok recs => .ok recs
        | _ => .exn "TypeError"
    else .none

/-- Stubbed successful current-weather response of spec property 7. -/
def currentStub : Json := Json.obj [
  ("cod", Json.num 200),
  ("main", Json.obj [("temp", Json.num 20), ("humidity", Json.num 55)]),
  ("weather", Json.arr [Json.obj [("description", Json.str "clear sky"),
                                  ("icon", Json.str "01d")]]),
  ("dt", Json.num 1700000000),
  ("coord", Json.obj [("lat", Json.num (51.5 : ℚ)), ("lon", Json.num (-0.1 : ℚ))])
]

/-- C6: for every Celsius temperature c, `to_unit c "°F" = c * 9 / 5 + 32`;
in particular 0 °C maps to 32 °F and 100 °C maps to 212 °F. -/
theorem to_unit_fahrenheit (c : ℚ) :
    to_unit c "°F" = c * 9 / 5 + 32 ∧
    to_unit 0 "°F" = 32 ∧ to_unit 100 "°F" = 212 := by
  refine ⟨rfl, by norm_num [to_unit], by norm_num [to_unit]⟩

/-- C9: selecting the Celsius unit leaves every temperature unchanged. -/
theorem to_unit_celsius_id (c : ℚ) : to_unit c "°C" = c := rfl

/-- C10: `to_unit` is total over arbitrary unit strings and defaults to the
identity; only the exact string "°F" triggers the Fahrenheit conversion. -/
theorem to_unit_default_id (c : ℚ) (u : String) (h : u ≠ "°F") :
    to_unit c u = c := by
  unfold to_unit
  rw [if_neg]
  simpa using h

/-- Witness for C10 at the concrete unit string "°C". -/
theorem to_unit_default_id_witness :
    ("°C" : String) ≠ "°F" ∧ to_unit 5 "°C" = 5 :=
  ⟨by decide, to_unit_default_id 5 "°C" (by decide)⟩

/-- C7: on the stubbed response (20 °C, humidity 55, "clear sky", icon
"01d", dt 1700000000, lat 51.5, lon -0.1) with the Fahrenheit unit,
`fetch_current_weather` returns the complete record with temperature 68,
humidity 55, description "clear sky" and coordinates (51.5, -0.1). -/
theorem fetch_current_stub_scenario :
    fetch_current_weather currentStub "°F" =
      FetchOutcome.ok { temp := 68, humidity := 55, description := "clear sky",
                        icon := "01d", timestamp := 1700000000,
                        lat := 51.5, lon := -0.1 } := by
  simp +decide [fetch_current_weather, currentStub, pyGet, Json.lookupField,
    extractCurrent, pyIndex, pyAt, asNum, asStr, pyEqNum, to_unit, Bind.bind, Except.bind,
    Pure.pure, Except.pure, CurrentObservation.mk.injEq]
  norm_num

/-- Elimination for a successful monadic bind over `Except`. -/
theorem exbind_ok {α β : Type} {x : Except PyErr α} {f : α → Except PyErr β} {b : β}
    (h : x >>= f = Except.ok b) : ∃ a, x = Except.ok a ∧ f a = Except.ok b := by
  cases x with
  | error e => simp [Bind.bind, Except.bind] at h
  | ok a => exact ⟨a, rfl, by simpa [Bind.bind, Except.bind] using h⟩

/-- The timestamp a forecast entry carries (`entry["dt"]` as a number). -/
def entryDt (en : Json) : Except PyErr ℚ := pyIndex en "dt" >>= asNum

/-- What a successful `extractEntry` says about the entry it was built
from: every field of the record is the corresponding field of the entry,
with temperature converted and precipitation probability scaled. -/
theorem extractEntry_spec {en : Json} {u : String} {r : ForecastRecord}
    (h : extractEntry en u = Except.ok r) :
    entryDt en = Except.ok r.timestamp ∧
    (∃ tc, (pyIndex en "main" >>= (pyIndex · "temp") >>= asNum) = Except.ok tc ∧
           r.temperature = to_unit tc u) ∧
    (pyIndex en "main" >>= (pyIndex · "humidity") >>= asNum) = Except.ok r.humidity ∧
    (pyIndex en "wind" >>= (pyIndex · "speed") >>= asNum) = Except.ok r.wind_speed ∧
    (∃ p, (pyGetDefault en "pop" (Json.num 0) >>= asNum) = Except.ok p ∧
          r.rain_chance = p * 100) := by
  unfold extractEntry at h
  obtain ⟨dt, hdt, h⟩ := exbind_ok h
  obtain ⟨tc, htc, h⟩ := exbind_ok h
  obtain ⟨hum, hhum, h⟩ := exbind_ok h
  obtain ⟨des, hdes, h⟩ := exbind_ok h
  obtain ⟨wind, hwind, h⟩ := exbind_ok h
  obtain ⟨pop, hpop, h⟩ := exbind_ok h
  simp only [Pure.pure, Except.pure, Except.ok.injEq] at h
  subst h
  exact ⟨hdt, ⟨tc, htc, rfl⟩, hhum, hwind, ⟨pop, hpop, rfl⟩⟩

/-- What a successful `extractCurrent` says about the humidity field: it
is copied verbatim from `data["main"]["humidity"]`. -/
theorem extractCurrent_humidity {data : Json} {u : String} {r : CurrentObservation}
    (h : extractCurrent data u = Except.ok r) :
    (pyIndex data "main" >>= (pyIndex · "humidity") >>= asNum) = Except.ok r.humidity := by
  unfold extractCurrent at h
  obtain ⟨tc, htc, h⟩ := exbind_ok h
  obtain ⟨hum, hhum, h⟩ := exbind_ok h
  obtain ⟨des, hdes, h⟩ := exbind_ok h
  obtain ⟨ic, hic, h⟩ := exbind_ok h
  obtain ⟨dt, hdt, h⟩ := exbind_ok h
  obtain ⟨la, hla, h⟩ := exbind_ok h
  obtain ⟨lo, hlo, h⟩ := exbind_ok h
  simp only [Pure.pure, Except.pure, Except.ok.injEq] at h
  subst h
  exact hhum

/-- A successful loop over a nonempty entry list yields the head record
followed by the records of the tail. -/
theorem mapEntries_ok_cons {u : String} {en : Json} {rest : List Json}
    {recs : List ForecastRecord}
    (h : mapEntries u (en :: rest) = Except.ok recs) :
    ∃ r rs, extractEntry en u = Except.ok r ∧ mapEntries u rest = Except.ok rs ∧
            recs = r :: rs := by
  unfold mapEntries at h
  obtain ⟨r, hr, h⟩ := exbind_ok h
  obtain ⟨rs, hrs, h⟩ := exbind_ok h
  simp only [Pure.pure, Except.pure, Except.ok.injEq] at h
  exact ⟨r, rs, hr, hrs, h.symm⟩

/-- A successful loop yields exactly one record per entry. -/
theorem mapEntries_length {u : String} : ∀ {l : List Json} {recs : List ForecastRecord},
    mapEntries u l = Except.ok recs → recs.length = l.length := by
  intro l
  induction l with
  | nil =>
    intro recs h
    simp only [mapEntries, Except.ok.injEq] at h
    simp [← h]
  | cons en rest ih =>
    intro recs h
    obtain ⟨r, rs, _, hrs, hrecs⟩ := mapEntries_ok_cons h
    subst hrecs
    simp [ih hrs]

/-- Each record of a successful loop is the image of the entry at the
same position. -/
theorem mapEntries_get {u : String} : ∀ {l : List Json} {recs : List ForecastRecord},
    mapEntries u l = Except.ok recs →
    ∀ i (hi : i < l.length) (hi2 : i < recs.length),
      extractEntry (l.get ⟨i, hi⟩) u = Except.ok (recs.get ⟨i, hi2⟩) := by
  intro l
  induction l with
  | nil => intro recs h i hi hi2; exact absurd hi (by simp)
  | cons en rest ih =>
    intro recs h i hi hi2
    obtain ⟨r, rs, hr, hrs, hrecs⟩ := mapEntries_ok_cons h
    subst hrecs
    cases i with
    | zero => simpa using hr
    | succ j =>
      have hj : j < rest.length := by simpa using hi
      have hj2 : j < rs.length := by simpa using hi2
      simpa using ih hrs j hj hj2

/-- Every record of a successful loop comes from some entry of the list. -/
theorem mapEntries_mem {u : String} : ∀ {l : List Json} {recs : List ForecastRecord},
    mapEntries u l = Except.ok recs → ∀ {r : ForecastRecord}, r ∈ recs →
    ∃ en, en ∈ l ∧ extractEntry en u = Except.ok r := by
  intro l
  induction l with
  | nil =>
    intro recs h r hr
    simp only [mapEntries, Except.ok.injEq] at h
    rw [← h] at hr
    exact absurd hr (by simp)
  | cons en rest ih =>
    intro recs h r hr
    obtain ⟨r0, rs, hr0, hrs, hrecs⟩ := mapEntries_ok_cons h
    subst hrecs
    rcases List.mem_cons.mp hr with h1 | h2
    · exact ⟨en, List.mem_cons_self en rest, h1 ▸ hr0⟩
    · obtain ⟨en2, hen2, hx⟩ := ih hrs h2
      exact ⟨en2, List.mem_cons_of_mem en hen2, hx⟩

/-- The input entries carry chronological timestamps: every adjacent pair
of successfully extracted `dt` values is strictly increasing. -/
def chronB : List Json → Bool
  | [] => true
  | [_] => true
  | a :: b :: rest =>
    (match entryDt a, entryDt b with
     | .ok d1, .ok d2 => decide (d1 < d2)
     | _, _ => true) && chronB (b :: rest)

/-- The record series is strictly increasing in its timestamps. -/
def tsSorted : List ForecastRecord → Bool
  | [] => true
  | [_] => true
  | a :: b :: rest => decide (a.timestamp < b.timestamp) && tsSorted (b :: rest)

/-- Order preservation core: a successful loop over chronological entries
produces a series with strictly increasing timestamps. -/
theorem tsSorted_of_chron {u : String} : ∀ {l : List Json} {recs : List ForecastRecord},
    mapEntries u l = Except.ok recs → chronB l = true → tsSorted recs = true := by
  intro l
  induction l with
  | nil =>
    intro recs h _
    simp only [mapEntries, Except.ok.injEq] at h
    rw [← h]
    rfl
  | cons a rest ih =>
    intro recs h hch
    obtain ⟨r, rs, hr, hrs, hrecs⟩ := mapEntries_ok_cons h
    subst hrecs
    cases rest with
    | nil =>
      simp only [mapEntries, Except.ok.injEq] at hrs
      rw [← hrs]
      rfl
    | cons b rest2 =>
      obtain ⟨r2, rs2, hr2, hrs2, hrs'⟩ := mapEntries_ok_cons hrs
      subst hrs'
      have h1 : entryDt a = Except.ok r.timestamp := (extractEntry_spec hr).1
      have h2 : entryDt b = Except.ok r2.timestamp := (extractEntry_spec hr2).1
      unfold chronB at hch
      rw [h1, h2] at hch
      rw [Bool.and_eq_true] at hch
      unfold tsSorted
      rw [Bool.and_eq_true]
      exact ⟨hch.1, ih hrs hch.2⟩

/-- A successful `fetch_forecast` comes from a successful loop over the
entries of `raw["list"]`. -/
theorem fetch_forecast_ok_elim {raw : Json} {u : String} {recs : List ForecastRecord}
    {entries : List Json}
    (h : fetch_forecast raw u = FetchOutcome.ok recs)
    (hl : pyIndex raw "list" = Except.ok (Json.arr entries)) :
    mapEntries u entries = Except.ok recs := by
  cases raw
  case obj fs =>
    unfold fetch_forecast at h
    simp only [pyGet] at h
    by_cases hs : pyEqStr (Json.lookupField fs "cod") "200" = true
    · rw [if_pos hs] at h
      rw [show pyIndex (Json.obj fs) "list" = Except.ok (Json.arr entries) from hl] at h
      simp only [] at h
      cases hm : mapEntries u entries with
      | error e => rw [hm] at h; simp only [] at h; cases h
      | ok recs2 =>
        rw [hm] at h
        simp only [] at h
        cases h
        rfl
    · rw [if_neg hs] at h
      cases h
  all_goals simp [pyIndex] at hl

/-- A successful `fetch_current_weather` comes from a successful field
extraction. -/
theorem fetch_current_ok_elim {data : Json} {u : String} {r : CurrentObservation}
    (h : fetch_current_weather data u = FetchOutcome.ok r) :
    extractCurrent data u = Except.ok r := by
  cases data
  case obj fs =>
    unfold fetch_current_weather at h
    simp only [pyGet] at h
    by_cases hs : pyEqNum (Json.lookupField fs "cod") 200 = true
    · rw [if_pos hs] at h
      cases hm : extractCurrent (Json.obj fs) u with
      | error e => rw [hm] at h; simp only [] at h; cases h
      | ok r2 =>
        rw [hm] at h
        simp only [] at h
        cases h
        rfl
    · rw [if_neg hs] at h
      cases h
  all_goals
    unfold fetch_current_weather at h
    simp only [pyGet] at h
    cases h

/-- The textual status check passes exactly for the string "200". -/
theorem pyEqStr_200_iff (o : Option Json) :
    pyEqStr o "200" = true ↔ o = some (Json.str "200") := by
  cases o with
  | none => simp [pyEqStr]
  | some j => cases j <;> simp [pyEqStr]

/-- The numeric status check passes exactly for the number 200. -/
theorem pyEqNum_200_iff (o : Option Json) :
    pyEqNum o 200 = true ↔ o = some (Json.num 200) := by
  cases o with
  | none => simp [pyEqNum]
  | some j =>
    cases j with
    | num q => simp [pyEqNum, beq_iff_eq]
    | bool b => cases b <;> simp [pyEqNum]
    | null => simp [pyEqNum]
    | str s => simp [pyEqNum]
    | arr xs => simp [pyEqNum]
    | obj fs => simp [pyEqNum]

/-- C2 counterexample: a decoded response that is not a JSON object (here
the empty JSON array, whose status field is certainly absent) makes both
fetchers raise `AttributeError` at `.get("cod")` instead of returning the
failure value. -/
theorem nonobject_response_crashes :
    fetch_current_weather (Json.arr []) "°C" = FetchOutcome.exn "AttributeError" ∧
    fetch_forecast (Json.arr []) "°C" = FetchOutcome.exn "AttributeError" :=
  ⟨rfl, rfl⟩

/-- C2 (amended): for every decoded JSON object response whose in-band
status differs from the respective success sentinel (including when the
"cod" field is absent), the respective fetcher returns the failure value
`None` — it does not raise and does not return a partially populated
record. -/
theorem status_failure_yields_none (fs : List (String × Json)) (u : String)
    (h1 : pyEqNum (Json.lookupField fs "cod") 200 = false)
    (h2 : pyEqStr (Json.lookupField fs "cod") "200" = false) :
    fetch_current_weather (Json.obj fs) u = FetchOutcome.none ∧
    fetch_forecast (Json.obj fs) u = FetchOutcome.none := by
  constructor
  · unfold fetch_current_weather
    simp [pyGet, h1]
  · unfold fetch_forecast
    simp [pyGet, h2]

/-- Witness for the amended C2: a response whose status is the string
"404" fails both status checks and both fetchers return `None`. -/
theorem status_failure_yields_none_witness :
    pyEqNum (Json.lookupField [("cod", Json.str "404")] "cod") 200 = false ∧
    pyEqStr (Json.lookupField [("cod", Json.str "404")] "cod") "200" = false ∧
    fetch_current_weather (Json.obj [("cod", Json.str "404")]) "°C" = FetchOutcome.none ∧
    fetch_forecast (Json.obj [("cod", Json.str "404")]) "°C" = FetchOutcome.none :=
  ⟨rfl, by decide,
   (status_failure_yields_none [("cod", Json.str "404")] "°C" rfl (by decide)).1,
   (status_failure_yields_none [("cod", Json.str "404")] "°C" rfl (by decide)).2⟩

/-- C8: the two endpoints use differently typed success sentinels.
`fetch_forecast` proceeds past its status check exactly when the "cod"
field is the text "200" — in particular a forecast response carrying the
number 200 is treated as a failure — while `fetch_current_weather`
proceeds exactly when the "cod" field is the number 200. -/
theorem status_sentinel_textual_vs_numeric (fs : List (String × Json)) (u : String) :
    (fetch_forecast (Json.obj fs) u ≠ FetchOutcome.none ↔
       Json.lookupField fs "cod" = some (Json.str "200")) ∧
    fetch_forecast (Json.obj [("cod", Json.num 200), ("list", Json.arr [])]) u
      = FetchOutcome.none ∧
    (fetch_current_weather (Json.obj fs) u ≠ FetchOutcome.none ↔
       Json.lookupField fs "cod" = some (Json.num 200)) := by
  refine ⟨⟨?_, ?_⟩, rfl, ⟨?_, ?_⟩⟩
  · intro hne
    by_contra hneq
    have hf : pyEqStr (Json.lookupField fs "cod") "200" = false := by
      cases hb : pyEqStr (Json.lookupField fs "cod") "200"
      · rfl
      · exact absurd ((pyEqStr_200_iff _).mp hb) hneq
    exact hne (by unfold fetch_forecast; simp [pyGet, hf])
  · intro heq
    have hs : pyEqStr (Json.lookupField fs "cod") "200" = true :=
      (pyEqStr_200_iff _).mpr heq
    unfold fetch_forecast
    simp only [pyGet, hs, if_true]
    cases hpi : pyIndex (Json.obj fs) "list" with
    | error e => simp
    | ok l =>
      cases l <;> simp
      case arr elems =>
        cases hm : mapEntries u elems <;> simp
  · intro hne
    by_contra hneq
    have hf : pyEqNum (Json.lookupField fs "cod") 200 = false := by
      cases hb : pyEqNum (Json.lookupField fs "cod") 200
      · rfl
      · exact absurd ((pyEqNum_200_iff _).mp hb) hneq
    exact hne (by unfold fetch_current_weather; simp [pyGet, hf])
  · intro heq
    have hs : pyEqNum (Json.lookupField fs "cod") 200 = true :=
      (pyEqNum_200_iff _).mpr heq
    unfold fetch_current_weather
    simp only [pyGet, hs, if_true]
    cases hm : extractCurrent (Json.obj fs) u <;> simp

/-- A well-formed forecast entry without a "pop" field (dt 100). -/
def fEntry1 : Json := Json.obj [
  ("dt", Json.num 100),
  ("main", Json.obj [("temp", Json.num 10), ("humidity", Json.num 40)]),
  ("weather", Json.arr [Json.obj [("description", Json.str "mist"), ("icon", Json.str "50d")]]),
  ("wind", Json.obj [("speed", Json.num 2)])
]

/-- A well-formed forecast entry with pop 0.5 (dt 200). -/
def fEntry2 : Json := Json.obj [
  ("dt", Json.num 200),
  ("main", Json.obj [("temp", Json.num 12), ("humidity", Json.num 45)]),
  ("weather", Json.arr [Json.obj [("description", Json.str "clear sky"), ("icon", Json.str "01d")]]),
  ("wind", Json.obj [("speed", Json.num 4)]),
  ("pop", Json.num (0.5 : ℚ))
]

/-- The record `fEntry1` maps to under the Celsius unit. -/
def fRec1 : ForecastRecord :=
  { timestamp := 100, temperature := 10, humidity := 40, description := "mist",
    wind_speed := 2, rain_chance := 0 }

/-- The record `fEntry2` maps to under the Celsius unit. -/
def fRec2 : ForecastRecord :=
  { timestamp := 200, temperature := 12, humidity := 45, description := "clear sky",
    wind_speed := 4, rain_chance := 50 }

/-- A stubbed successful two-entry forecast response. -/
def forecastStub : Json :=
  Json.obj [("cod", Json.str "200"), ("list", Json.arr [fEntry1, fEntry2])]

/-- Evaluation of the stubbed forecast response. -/
theorem forecastStub_eval :
    fetch_forecast forecastStub "°C" = FetchOutcome.ok [fRec1, fRec2] := by
  simp +decide [fetch_forecast, forecastStub, fEntry1, fEntry2, fRec1, fRec2, pyGet,
    Json.lookupField, pyEqStr, pyIndex, pyAt, asNum, asStr, pyGetDefault, mapEntries,
    extractEntry, to_unit, Bind.bind, Except.bind, Pure.pure, Except.pure,
    ForecastRecord.mk.injEq]
  norm_num

/-- C3: every successful `fetch_forecast` maps each entry of the input
list independently into exactly one record and emits the records in input
order, with no re-sorting or shuffling; consequently, whenever the input
timestamps are chronological, the series timestamps are strictly
increasing at every adjacent pair. -/
theorem forecast_preserves_order (raw : Json) (u : String) (entries : List Json)
    (recs : List ForecastRecord)
    (hl : pyIndex raw "list" = Except.ok (Json.arr entries))
    (hok : fetch_forecast raw u = FetchOutcome.ok recs) :
    mapEntries u entries = Except.ok recs ∧
    recs.length = entries.length ∧
    (∀ i (hi : i < entries.length) (hi2 : i < recs.length),
       extractEntry (entries.get ⟨i, hi⟩) u = Except.ok (recs.get ⟨i, hi2⟩)) ∧
    (chronB entries = true → tsSorted recs = true) := by
  have hm := fetch_forecast_ok_elim hok hl
  exact ⟨hm, mapEntries_length hm, mapEntries_get hm,
         fun hchron => tsSorted_of_chron hm hchron⟩

/-- Witness for C3: the stubbed two-entry forecast (dt 100 then 200) maps
to its two records in order and the series timestamps are increasing. -/
theorem forecast_preserves_order_witness :
    mapEntries "°C" [fEntry1, fEntry2] = Except.ok [fRec1, fRec2] ∧
    tsSorted [fRec1, fRec2] = true := by
  have h := forecast_preserves_order forecastStub "°C" [fEntry1, fEntry2] [fRec1, fRec2]
    rfl forecastStub_eval
  exact ⟨h.1, h.2.2.2 (by decide)⟩

/-- C4: the precipitation probability of a forecast record is the "pop"
fraction of its entry scaled by 100, and 0 when "pop" is absent. -/
theorem rain_chance_scaling (fs : List (String × Json)) (u : String) (r : ForecastRecord)
    (hok : extractEntry (Json.obj fs) u = Except.ok r) :
    (∀ p : ℚ, Json.lookupField fs "pop" = some (Json.num p) → r.rain_chance = p * 100) ∧
    (Json.lookupField fs "pop" = none → r.rain_chance = 0) := by
  obtain ⟨-, -, -, -, p, hp, hr⟩ := extractEntry_spec hok
  constructor
  · intro q hq
    have hgd : pyGetDefault (Json.obj fs) "pop" (Json.num 0) = Except.ok (Json.num q) := by
      simp [pyGetDefault, pyGet, hq]
    obtain ⟨j, hj, hja⟩ := exbind_ok hp
    rw [hgd] at hj
    cases hj
    simp only [asNum, Except.ok.injEq] at hja
    rw [hr, hja]
  · intro habs
    have hgd : pyGetDefault (Json.obj fs) "pop" (Json.num 0) = Except.ok (Json.num 0) := by
      simp [pyGetDefault, pyGet, habs]
    obtain ⟨j, hj, hja⟩ := exbind_ok hp
    rw [hgd] at hj
    cases hj
    simp only [asNum, Except.ok.injEq] at hja
    rw [hr, ← hja]
    norm_num

/-- A forecast entry with pop 0.37, the example value of the spec. -/
def popEntry : Json := Json.obj [
  ("dt", Json.num 300),
  ("main", Json.obj [("temp", Json.num 15), ("humidity", Json.num 60)]),
  ("weather", Json.arr [Json.obj [("description", Json.str "rain"), ("icon", Json.str "10d")]]),
  ("wind", Json.obj [("speed", Json.num 5)]),
  ("pop", Json.num (0.37 : ℚ))
]

/-- The record `popEntry` maps to under the Celsius unit. -/
def popRec : ForecastRecord :=
  { timestamp := 300, temperature := 15, humidity := 60, description := "rain",
    wind_speed := 5, rain_chance := 37 }

/-- Witness for C4: pop 0.37 yields rain chance 37.0, and the entry
without a "pop" field yields rain chance 0.0. -/
theorem rain_chance_scaling_witness :
    popRec.rain_chance = (0.37 : ℚ) * 100 ∧ fRec1.rain_chance = 0 := by
  have hok : extractEntry popEntry "°C" = Except.ok popRec := by
    simp +decide [extractEntry, popEntry, popRec, pyGet, Json.lookupField, pyIndex, pyAt,
      asNum, asStr, pyGetDefault, to_unit, Bind.bind, Except.bind, Pure.pure, Except.pure,
      ForecastRecord.mk.injEq]
    norm_num
  have hok1 : extractEntry fEntry1 "°C" = Except.ok fRec1 := by
    simp +decide [extractEntry, fEntry1, fRec1, pyGet, Json.lookupField, pyIndex, pyAt,
      asNum, asStr, pyGetDefault, to_unit, Bind.bind, Except.bind, Pure.pure, Except.pure,
      ForecastRecord.mk.injEq]
  constructor
  · exact (rain_chance_scaling _ "°C" _ hok).1 (0.37 : ℚ) rfl
  · exact (rain_chance_scaling _ "°C" _ hok1).2 rfl

/-- A forecast response whose single entry carries humidity 150. -/
def humidity150Stub : Json := Json.obj [
  ("cod", Json.str "200"),
  ("list", Json.arr [Json.obj [
    ("dt", Json.num 0),
    ("main", Json.obj [("temp", Json.num 20), ("humidity", Json.num 150)]),
    ("weather", Json.arr [Json.obj [("description", Json.str "mist"), ("icon", Json.str "50d")]]),
    ("wind", Json.obj [("speed", Json.num 3)])]])
]

/-- C5 counterexample: the fetchers perform no range validation — a
successful forecast fetch whose entry carries humidity 150 returns a
record with humidity 150, outside [0,100], so the invariant as claimed
fails on the code. -/
theorem humidity_bound_counterexample :
    fetch_forecast humidity150Stub "°C" =
      FetchOutcome.ok [{ timestamp := 0, temperature := 20, humidity := 150,
                         description := "mist", wind_speed := 3, rain_chance := 0 }] ∧
    ¬ ((150 : ℚ) ≤ 100) := by
  constructor
  · simp +decide [fetch_forecast, humidity150Stub, pyGet, Json.lookupField, pyEqStr,
      pyIndex, pyAt, asNum, asStr, pyGetDefault, mapEntries, extractEntry, to_unit,
      Bind.bind, Except.bind, Pure.pure, Except.pure, ForecastRecord.mk.injEq]
  · norm_num

/-- C5 (amended): the fetchers copy humidity and wind speed verbatim and
scale the pop fraction by 100, validating nothing; therefore the claimed
bounds hold exactly when the response respects the API schema ranges
(humidity in [0,100], wind speed nonnegative, pop fraction in [0,1]). -/
theorem bounds_preserved (data raw : Json) (u : String) (rc : CurrentObservation)
    (entries : List Json) (recs : List ForecastRecord)
    (hcur : fetch_current_weather data u = FetchOutcome.ok rc)
    (hch : ∀ h : ℚ, (pyIndex data "main" >>= (pyIndex · "humidity") >>= asNum) = Except.ok h →
           0 ≤ h ∧ h ≤ 100)
    (hl : pyIndex raw "list" = Except.ok (Json.arr entries))
    (hfor : fetch_forecast raw u = FetchOutcome.ok recs)
    (hent : ∀ en ∈ entries,
       (∀ h : ℚ, (pyIndex en "main" >>= (pyIndex · "humidity") >>= asNum) = Except.ok h →
          0 ≤ h ∧ h ≤ 100) ∧
       (∀ w : ℚ, (pyIndex en "wind" >>= (pyIndex · "speed") >>= asNum) = Except.ok w →
          0 ≤ w) ∧
       (∀ p : ℚ, (pyGetDefault en "pop" (Json.num 0) >>= asNum) = Except.ok p →
          0 ≤ p ∧ p ≤ 1)) :
    (0 ≤ rc.humidity ∧ rc.humidity ≤ 100) ∧
    ∀ r ∈ recs, (0 ≤ r.humidity ∧ r.humidity ≤ 100) ∧ 0 ≤ r.wind_speed ∧
                (0 ≤ r.rain_chance ∧ r.rain_chance ≤ 100) := by
  constructor
  · exact hch rc.humidity (extractCurrent_humidity (fetch_current_ok_elim hcur))
  · intro r hr
    have hm := fetch_forecast_ok_elim hfor hl
    obtain ⟨en, hen, hex⟩ := mapEntries_mem hm hr
    obtain ⟨hh, hw, hp⟩ := hent en hen
    obtain ⟨-, -, hhum, hwind, p, hpop, hrain⟩ := extractEntry_spec hex
    refine ⟨hh r.humidity hhum, hw r.wind_speed hwind, ?_⟩
    obtain ⟨hp0, hp1⟩ := hp p hpop
    rw [hrain]
    constructor
    · exact mul_nonneg hp0 (by norm_num)
    · calc p * 100 ≤ 1 * 100 := by
            exact mul_le_mul_of_nonneg_right hp1 (by norm_num)
        _ = 100 := by norm_num

/-- The record `currentStub` yields under the Celsius unit. -/
def currentRecC : CurrentObservation :=
  { temp := 20, humidity := 55, description := "clear sky", icon := "01d",
    timestamp := 1700000000, lat := 51.5, lon := -0.1 }

/-- Witness for the amended C5 on the stubbed current and forecast
responses, whose fields respect the API schema ranges. -/
theorem bounds_preserved_witness :
    (0 ≤ currentRecC.humidity ∧ currentRecC.humidity ≤ 100) ∧
    (0 ≤ fRec2.humidity ∧ fRec2.humidity ≤ 100) ∧ 0 ≤ fRec2.wind_speed ∧
    (0 ≤ fRec2.rain_chance ∧ fRec2.rain_chance ≤ 100) := by
  have hcur : fetch_current_weather currentStub "°C" = FetchOutcome.ok currentRecC := by
    simp +decide [fetch_current_weather, currentStub, currentRecC, pyGet, Json.lookupField,
      extractCurrent, pyIndex, pyAt, asNum, asStr, pyEqNum, to_unit, Bind.bind, Except.bind,
      Pure.pure, Except.pure, CurrentObservation.mk.injEq]
  have h := bounds_preserved currentStub forecastStub "°C" currentRecC
    [fEntry1, fEntry2] [fRec1, fRec2] hcur
    (by
      intro h hh
      rw [show (pyIndex currentStub "main" >>= (pyIndex · "humidity") >>= asNum)
            = Except.ok (55 : ℚ) from rfl] at hh
      cases hh
      norm_num)
    rfl forecastStub_eval
    (by
      intro en hen
      rcases (by simpa using hen : en = fEntry1 ∨ en = fEntry2) with rfl | rfl
      · refine ⟨?_, ?_, ?_⟩
        · intro h hh
          rw [show (pyIndex fEntry1 "main" >>= (pyIndex · "humidity") >>= asNum)
                = Except.ok (40 : ℚ) from rfl] at hh
          cases hh
          norm_num
        · intro w hw
          rw [show (pyIndex fEntry1 "wind" >>= (pyIndex · "speed") >>= asNum)
                = Except.ok (2 : ℚ) from rfl] at hw
          cases hw
          norm_num
        · intro p hp
          rw [show (pyGetDefault fEntry1 "pop" (Json.num 0) >>= asNum)
                = Except.ok (0 : ℚ) from rfl] at hp
          cases hp
          norm_num
      · refine ⟨?_, ?_, ?_⟩
        · intro h hh
          rw [show (pyIndex fEntry2 "main" >>= (pyIndex · "humidity") >>= asNum)
                = Except.ok (45 : ℚ) from rfl] at hh
          cases hh
          norm_num
        · intro w hw
          rw [show (pyIndex fEntry2 "wind" >>= (pyIndex · "speed") >>= asNum)
                = Except.ok (4 : ℚ) from rfl] at hw
          cases hw
          norm_num
        · intro p hp
          rw [show (pyGetDefault fEntry2 "pop" (Json.num 0) >>= asNum)
                = Except.ok (0.5 : ℚ) from rfl] at hp
          cases hp
          norm_num)
  exact ⟨h.1, h.2 fRec2 (by simp)⟩

/-- C1 counterexample: a current-weather response whose status is the
success value 200 but which lacks the required "main" field makes
`fetch_current_weather` raise `KeyError` — the exception escapes the
function instead of a failure result being returned (the `try` block of
the source covers only the request and the JSON decode). -/
theorem missing_field_counterexample :
    fetch_current_weather (Json.obj [("cod", Json.num 200)]) "°C"
      = FetchOutcome.exn "KeyError" ∧
    (FetchOutcome.exn "KeyError" : FetchOutcome CurrentObservation)
      ≠ FetchOutcome.none := by
  exact ⟨rfl, by simp⟩

/-- C1 (amended): when a required field is missing while the in-band
status equals the success sentinel, the fetchers never return a partially
populated record — but they do not return a failure result either: the
extraction error (KeyError / IndexError / TypeError) escapes the function
as an exception.  This covers a failing current-weather extraction, a
forecast response without a readable "list", and a failing entry
extraction inside the forecast loop. -/
theorem missing_field_escapes (fs gs hs : List (String × Json))
    (entries : List Json) (u : String) (e1 e2 e3 : PyErr)
    (hcs : pyEqNum (Json.lookupField fs "cod") 200 = true)
    (hce : extractCurrent (Json.obj fs) u = Except.error e1)
    (hfs : pyEqStr (Json.lookupField gs "cod") "200" = true)
    (hfl : pyIndex (Json.obj gs) "list" = Except.ok (Json.arr entries))
    (hfe : mapEntries u entries = Except.error e2)
    (hgs : pyEqStr (Json.lookupField hs "cod") "200" = true)
    (hgl : pyIndex (Json.obj hs) "list" = Except.error e3) :
    fetch_current_weather (Json.obj fs) u = FetchOutcome.exn e1 ∧
    fetch_forecast (Json.obj gs) u = FetchOutcome.exn e2 ∧
    fetch_forecast (Json.obj hs) u = FetchOutcome.exn e3 := by
  refine ⟨?_, ?_, ?_⟩
  · unfold fetch_current_weather
    simp [pyGet, hcs, hce]
  · unfold fetch_forecast
    simp [pyGet, hfs, hfl, hfe]
  · unfold fetch_forecast
    simp [pyGet, hgs, hgl]

/-- Witness for the amended C1: concrete success-status responses with a
missing "main" field, a missing entry field, and a missing "list" field
all make the respective fetcher raise `KeyError`. -/
theorem missing_field_escapes_witness :
    fetch_current_weather (Json.obj [("cod", Json.num 200)]) "°F"
      = FetchOutcome.exn "KeyError" ∧
    fetch_forecast (Json.obj [("cod", Json.str "200"), ("list", Json.arr [Json.obj []])]) "°F"
      = FetchOutcome.exn "KeyError" ∧
    fetch_forecast (Json.obj [("cod", Json.str "200")]) "°F"
      = FetchOutcome.exn "KeyError" :=
  missing_field_escapes [("cod", Json.num 200)]
    [("cod", Json.str "200"), ("list", Json.arr [Json.obj []])]
    [("cod", Json.str "200")] [Json.obj []] "°F" "KeyError" "KeyError" "KeyError"
    (by decide) rfl rfl rfl rfl rfl rfl
